import Mathlib

/-!
Verification of the Nexus MCP hub core against its natural-language
specification.  Every definition in this file is a shallow embedding of a
function of the repository (module and symbol named in its doc comment);
theorems at the end of the file settle the spec claims against these
definitions.
-/

namespace Nexus

/-- Json values, the shallow embedding of the Python dicts / lists /
primitives that flow through the protocol layer.  Objects keep their
key-value pairs in insertion order, exactly as Python 3.7+ dicts do. -/
inductive Json where
  | null : Json
  | bool (b : Bool) : Json
  | num (n : Int) : Json
  | str (s : String) : Json
  | arr (items : List Json) : Json
  | obj (fields : List (String × Json)) : Json
deriving Inhabited

/-- Python truthiness of a Json value (`if x:`): None, False, 0, empty
string, empty list and empty dict are falsy, everything else truthy. -/
def Json.truthy : Json → Bool
  | .null => false
  | .bool b => b
  | .num n => n != 0
  | .str s => !s.isEmpty
  | .arr items => !items.isEmpty
  | .obj fields => !fields.isEmpty

/-- Python `d.get(k)` on a dict: the value at the first matching key, if
present (keys of a Python dict are unique, so first = only). -/
def Json.get? (j : Json) (key : String) : Option Json :=
  match j with
  | .obj fields =>
    match fields.find? (fun f => f.1 == key) with
    | some f => some f.2
    | none => none
  | _ => none

/-- Python `d.get(k, default)` on a dict. -/
def Json.getD (j : Json) (key : String) (dflt : Json) : Json :=
  (j.get? key).getD dflt

/-- Python `k in d` on a dict (membership tests keys only). -/
def Json.hasKey (j : Json) (key : String) : Bool :=
  (j.get? key).isSome

/-- Python str.split(sep) for a one-character separator, over the character
list: splitting the empty string gives [""], and n separators give n+1
groups. -/
def split_chars (sep : Char) : List Char → List (List Char)
  | [] => [[]]
  | c :: rest =>
    if c == sep then [] :: split_chars sep rest
    else
      match split_chars sep rest with
      | [] => [[c]]
      | g :: gs => (c :: g) :: gs

/-- Python str.split(sep) for a one-character separator. -/
def py_split (s : String) (sep : Char) : List String :=
  (split_chars sep s.data).map String.mk

/-- Whether the first list is a leading segment of the second. -/
def starts_with_chars : List Char → List Char → Bool
  | [], _ => true
  | _ :: _, [] => false
  | p :: ps, c :: cs => p == c && starts_with_chars ps cs

/-- Python str.split("\r\n"): split the character list at each CRLF
pair. -/
def split_crlf : List Char → List (List Char)
  | [] => [[]]
  | ['\r'] => [['\r']]
  | '\r' :: '\n' :: rest => [] :: split_crlf rest
  | c :: rest =>
    match split_crlf rest with
    | [] => [[c]]
    | g :: gs => (c :: g) :: gs

/-- RouteType enum from src/src/nexus/core/router/route.py. -/
inductive RouteType where
  | SERVER
  | CLIENT
  | ALL_SERVERS
  | ALL_CLIENTS
  | CAPABILITY
  | HUB
deriving DecidableEq, Repr

/-- RouteTarget from src/src/nexus/core/router/route.py: a route type with
an optional target id (SERVER / CLIENT) and an optional capability path
(CAPABILITY). -/
structure RouteTarget where
  route_type : RouteType
  target_id : Option String
  capability : Option String
deriving DecidableEq, Repr

/-- Route from src/src/nexus/core/router/route.py: source, destination and
an optional method pattern (None matches every method). -/
structure Route where
  source : RouteTarget
  destination : RouteTarget
  method_pattern : Option String
deriving DecidableEq, Repr

/-- Route.matches_method from src/src/nexus/core/router/route.py.  A falsy
pattern (None or the empty string) matches everything; otherwise exact
match, then a trailing "/*" (prefix match after dropping two characters),
then a trailing "*" (prefix match after dropping one character), then a
single embedded "*" (prefix and suffix match); anything else fails. -/
def Route.matches_method (route : Route) (method : String) : Bool :=
  match route.method_pattern with
  | none => true
  | some pattern =>
    if pattern.isEmpty then true
    else if pattern == method then true
    else if pattern.endsWith "/*" then method.startsWith (pattern.dropRight 2)
    else if pattern.endsWith "*" then method.startsWith (pattern.dropRight 1)
    else if pattern.contains '*' then
      match pattern.splitOn "*" with
      | [pre, suf] => method.startsWith pre && method.endsWith suf
      | _ => false
    else false

/-- MessageRouter.get_matching_routes from
src/src/nexus/core/router/router.py.  The router stores its routes in a
Python set; `routes` here is the set's iteration order at lookup time.
Three staged filters: source route type, then source id (SERVER / CLIENT
sources carrying an id) or capability (CAPABILITY sources carrying one),
then the method pattern, with an early empty return after each of the
first two stages. -/
def get_matching_routes (routes : List Route) (source : RouteTarget)
    (method : String) : List Route :=
  let source_type_matches :=
    routes.filter (fun route => route.source.route_type == source.route_type)
  if source_type_matches.isEmpty then []
  else
    let source_matches :=
      if (source.route_type == RouteType.SERVER
            || source.route_type == RouteType.CLIENT)
          && source.target_id.isSome then
        source_type_matches.filter
          (fun route => route.source.target_id == source.target_id)
      else if source.route_type == RouteType.CAPABILITY
          && source.capability.isSome then
        source_type_matches.filter
          (fun route => route.source.capability == source.capability)
      else source_type_matches
    if source_matches.isEmpty then []
    else source_matches.filter (fun route => route.matches_method method)

/-- Filter 1 of MessageRouter.get_matching_routes: the route's source has
the same route type as the message source. -/
def source_type_match (route : Route) (source : RouteTarget) : Bool :=
  route.source.route_type == source.route_type

/-- Filter 2 of MessageRouter.get_matching_routes: when the source is a
SERVER or CLIENT carrying a target id, the route's source must carry the
same id; when the source is a CAPABILITY carrying a capability, the
route's source must carry the same capability; otherwise no constraint. -/
def source_id_match (route : Route) (source : RouteTarget) : Bool :=
  if (source.route_type == RouteType.SERVER
        || source.route_type == RouteType.CLIENT)
      && source.target_id.isSome then
    route.source.target_id == source.target_id
  else if source.route_type == RouteType.CAPABILITY
      && source.capability.isSome then
    route.source.capability == source.capability
  else true

/-- MessageRouter.add_route applied to each element of `inserted` in order
builds a Python set holding exactly the distinct inserted routes; the
set's iteration order is an arbitrary duplicate-free enumeration of the
members.  `iter` is an admissible iteration order for that set when it
lists each member exactly once. -/
def set_iteration_of (inserted iter : List Route) : Prop :=
  iter.Nodup ∧ iter ⊆ inserted ∧ inserted ⊆ iter

/-- Python dict lookup `d[k]` / `d.get(k)` over an association list kept in
insertion order (Python dict keys are unique, so the first hit is the only
one). -/
def dict_get? {α β : Type} [BEq α] (l : List (α × β)) (key : α) : Option β :=
  match l.find? (fun e => e.1 == key) with
  | some e => some e.2
  | none => none

/-- Python dict assignment `d[k] = v`: replace the value at an existing key
in place, else append the new pair, preserving insertion order. -/
def dict_set {α β : Type} [BEq α] (l : List (α × β)) (key : α) (v : β) :
    List (α × β) :=
  if (dict_get? l key).isSome then
    l.map (fun e => if e.1 == key then (key, v) else e)
  else l ++ [(key, v)]

/-- Python `del d[k]` over the association list. -/
def dict_del {α β : Type} [BEq α] (l : List (α × β)) (key : α) :
    List (α × β) :=
  l.filter (fun e => e.1 != key)

/-- Permission enum from src/src/nexus/core/security/acl.py. -/
inductive Permission where
  | SERVER_VIEW
  | SERVER_CREATE
  | SERVER_MODIFY
  | SERVER_DELETE
  | SERVER_START
  | SERVER_STOP
  | CLIENT_VIEW
  | CLIENT_CREATE
  | CLIENT_MODIFY
  | CLIENT_DELETE
  | RESOURCE_VIEW
  | RESOURCE_CREATE
  | RESOURCE_MODIFY
  | RESOURCE_DELETE
  | TOOL_VIEW
  | TOOL_CALL
  | PROMPT_VIEW
  | PROMPT_USE
  | SAMPLING_REQUEST
  | ROUTER_VIEW
  | ROUTER_MODIFY
  | ADMIN_VIEW
  | ADMIN_MODIFY
deriving DecidableEq, Repr

/-- Resource from src/src/nexus/core/security/acl.py: a type with an
optional id (None means all resources of the type). -/
structure Resource where
  resource_type : String
  resource_id : Option String
deriving DecidableEq, Repr

/-- Resource.matches from src/src/nexus/core/security/acl.py: identical
types; a role resource without id matches every id of the type; a role
resource with an id requires the queried resource to carry the same id. -/
def Resource.matches (self other : Resource) : Bool :=
  if self.resource_type != other.resource_type then false
  else if self.resource_id.isNone then true
  else if other.resource_id.isNone then false
  else self.resource_id == other.resource_id

/-- Role from src/src/nexus/core/security/acl.py.  `permissions` embeds the
Python dict mapping Resource to a set of Permissions, kept in insertion
order; the permission sets are lists observed only through membership. -/
structure Role where
  name : String
  description : Option String
  permissions : List (Resource × List Permission)
deriving DecidableEq, Repr

/-- Role.add_permission from src/src/nexus/core/security/acl.py: create the
resource entry when absent, then add the permission to its set. -/
def Role.add_permission (role : Role) (resource : Resource)
    (permission : Permission) : Role :=
  match dict_get? role.permissions resource with
  | none =>
    { role with permissions := role.permissions ++ [(resource, [permission])] }
  | some perms =>
    if perms.contains permission then role
    else
      { role with permissions :=
          dict_set role.permissions resource (perms ++ [permission]) }

/-- Role.has_permission from src/src/nexus/core/security/acl.py.  The loop
returns on the FIRST resource entry that matches the query: it answers
whether that first matching entry grants the permission, and never
inspects later matching entries. -/
def Role.has_permission (role : Role) (resource : Resource)
    (permission : Permission) : Bool :=
  match role.permissions.find? (fun entry => entry.1.matches resource) with
  | some entry => entry.2.contains permission
  | none => false

/-- Roles and user-role assignments of AccessControlList from
src/src/nexus/core/security/acl.py, both Python dicts in insertion order
(user_roles maps a username to a list of role names). -/
structure AccessControlList where
  roles : List (String × Role)
  user_roles : List (String × List String)
deriving DecidableEq, Repr

/-- AccessControlList.get_user_roles from src/src/nexus/core/security/acl.py:
`self.user_roles.get(username, [])`. -/
def AccessControlList.get_user_roles (acl : AccessControlList)
    (username : String) : List String :=
  (dict_get? acl.user_roles username).getD []

/-- AccessControlList.has_permission from
src/src/nexus/core/security/acl.py: scan the user's assigned role names in
order; a name not present in the role table is skipped; return True on the
first role whose Role.has_permission answers True. -/
def AccessControlList.has_permission (acl : AccessControlList)
    (username : String) (resource : Resource) (permission : Permission) :
    Bool :=
  (acl.get_user_roles username).any (fun role_name =>
    match dict_get? acl.roles role_name with
    | some role => role.has_permission resource permission
    | none => false)

/-- Reading of claim C2's words (the spec sentence for
`has_permission(username, resource, permission)`): some role assigned to
the user has SOME resource entry matching the query whose permission set
contains the queried permission. -/
def acl_has_permission_spec (acl : AccessControlList) (username : String)
    (resource : Resource) (permission : Permission) : Bool :=
  (acl.get_user_roles username).any (fun role_name =>
    match dict_get? acl.roles role_name with
    | some role =>
      role.permissions.any (fun entry =>
        entry.1.matches resource && entry.2.contains permission)
    | none => false)

/-- AccessControlList.add_role from src/src/nexus/core/security/acl.py:
`self.roles[role.name] = role`. -/
def AccessControlList.add_role (acl : AccessControlList) (role : Role) :
    AccessControlList :=
  { acl with roles := dict_set acl.roles role.name role }

/-- The per-user update of AccessControlList.remove_role: when the role
name is in the user's list, remove its first occurrence (Python
list.remove), else leave the list alone. -/
def strip_role (role_name : String) (lst : List String) : List String :=
  if lst.contains role_name then lst.erase role_name else lst

/-- AccessControlList.remove_role from src/src/nexus/core/security/acl.py:
False when the role name is unknown; otherwise delete the role and remove
the name from every user's assignment list (Python list.remove: first
occurrence only, guarded by a membership test). -/
def AccessControlList.remove_role (acl : AccessControlList)
    (role_name : String) : Bool × AccessControlList :=
  if (dict_get? acl.roles role_name).isNone then (false, acl)
  else
    (true,
      { acl with
          roles := dict_del acl.roles role_name,
          user_roles := acl.user_roles.map (fun e =>
            (e.1, strip_role role_name e.2)) })

/-- AccessControlList.assign_role from src/src/nexus/core/security/acl.py:
False when the role name is unknown; otherwise create the user's entry when
absent, then append the role name when not already assigned. -/
def AccessControlList.assign_role (acl : AccessControlList)
    (username role_name : String) : Bool × AccessControlList :=
  if (dict_get? acl.roles role_name).isNone then (false, acl)
  else
    let base :=
      if (dict_get? acl.user_roles username).isSome then acl.user_roles
      else acl.user_roles ++ [(username, [])]
    let current := (dict_get? base username).getD []
    if current.contains role_name then (true, { acl with user_roles := base })
    else
      (true,
        { acl with
            user_roles := dict_set base username (current ++ [role_name]) })

/-- AccessControlList.revoke_role from src/src/nexus/core/security/acl.py:
False when the user or the assignment is unknown; otherwise remove the
first occurrence of the role name, dropping the user's entry when its list
becomes empty. -/
def AccessControlList.revoke_role (acl : AccessControlList)
    (username role_name : String) : Bool × AccessControlList :=
  match dict_get? acl.user_roles username with
  | none => (false, acl)
  | some lst =>
    if !lst.contains role_name then (false, acl)
    else
      let lst' := lst.erase role_name
      (true,
        { acl with
            user_roles :=
              if lst'.isEmpty then dict_del acl.user_roles username
              else dict_set acl.user_roles username lst' })

/-- Helper rendering the repeated Role.add_permission calls of
AccessControlList._initialize_default_roles: fold the calls in source
order over a fresh role. -/
def role_with_permissions (name description : String)
    (entries : List (Resource × Permission)) : Role :=
  entries.foldl (fun role e => role.add_permission e.1 e.2)
    (Role.mk name (some description) [])

/-- Default admin role built by AccessControlList._initialize_default_roles
in src/src/nexus/core/security/acl.py. -/
def default_admin_role : Role :=
  role_with_permissions "admin" "Administrator with full access"
    [(⟨"server", none⟩, .SERVER_VIEW), (⟨"server", none⟩, .SERVER_CREATE),
     (⟨"server", none⟩, .SERVER_MODIFY), (⟨"server", none⟩, .SERVER_DELETE),
     (⟨"server", none⟩, .SERVER_START), (⟨"server", none⟩, .SERVER_STOP),
     (⟨"client", none⟩, .CLIENT_VIEW), (⟨"client", none⟩, .CLIENT_CREATE),
     (⟨"client", none⟩, .CLIENT_MODIFY), (⟨"client", none⟩, .CLIENT_DELETE),
     (⟨"resource", none⟩, .RESOURCE_VIEW),
     (⟨"resource", none⟩, .RESOURCE_CREATE),
     (⟨"resource", none⟩, .RESOURCE_MODIFY),
     (⟨"resource", none⟩, .RESOURCE_DELETE),
     (⟨"tool", none⟩, .TOOL_VIEW), (⟨"tool", none⟩, .TOOL_CALL),
     (⟨"prompt", none⟩, .PROMPT_VIEW), (⟨"prompt", none⟩, .PROMPT_USE),
     (⟨"sampling", none⟩, .SAMPLING_REQUEST),
     (⟨"router", none⟩, .ROUTER_VIEW), (⟨"router", none⟩, .ROUTER_MODIFY),
     (⟨"admin", none⟩, .ADMIN_VIEW), (⟨"admin", none⟩, .ADMIN_MODIFY)]

/-- Default user role from AccessControlList._initialize_default_roles. -/
def default_user_role : Role :=
  role_with_permissions "user" "Regular user with limited access"
    [(⟨"server", none⟩, .SERVER_VIEW), (⟨"client", none⟩, .CLIENT_VIEW),
     (⟨"resource", none⟩, .RESOURCE_VIEW), (⟨"tool", none⟩, .TOOL_VIEW),
     (⟨"tool", none⟩, .TOOL_CALL), (⟨"prompt", none⟩, .PROMPT_VIEW),
     (⟨"prompt", none⟩, .PROMPT_USE), (⟨"sampling", none⟩, .SAMPLING_REQUEST)]

/-- Default guest role from AccessControlList._initialize_default_roles. -/
def default_guest_role : Role :=
  role_with_permissions "guest" "Guest user with minimal access"
    [(⟨"server", none⟩, .SERVER_VIEW), (⟨"resource", none⟩, .RESOURCE_VIEW)]

/-- AccessControlList.__init__ with no roles file on disk: the three default
roles in insertion order and no user-role assignments. -/
def default_access_control_list : AccessControlList :=
  { roles := [("admin", default_admin_role), ("user", default_user_role),
              ("guest", default_guest_role)],
    user_roles := [] }

/-- Mutating operations of the AccessControlList API (claim C9 quantifies
over the states these can reach). -/
inductive AclOp where
  | add (role : Role)
  | remove (role_name : String)
  | assign (username role_name : String)
  | revoke (username role_name : String)

/-- Apply one AccessControlList operation, keeping the resulting state. -/
def AclOp.apply : AclOp → AccessControlList → AccessControlList
  | .add role, acl => acl.add_role role
  | .remove n, acl => (acl.remove_role n).2
  | .assign u n, acl => (acl.assign_role u n).2
  | .revoke u n, acl => (acl.revoke_role u n).2

/-- State of the AccessControlList after a sequence of API operations
starting from the default construction. -/
def acl_after (ops : List AclOp) : AccessControlList :=
  ops.foldl (fun acl op => op.apply acl) default_access_control_list

/-- Invariant carried by claim C9's argument: every user's assignment list
is duplicate-free (assign_role appends a role name only when absent). -/
def acl_user_roles_nodup (acl : AccessControlList) : Prop :=
  ∀ e ∈ acl.user_roles, e.2.Nodup

/-- State of BasicAuthProvider from src/src/nexus/core/security/auth.py:
users, the token store, the absolute expiry times and the configured token
lifetime (default 3600 seconds); wall-clock times are integers. -/
structure BasicAuthProvider where
  users : List (String × Json)
  tokens : List (String × Json)
  token_expiry : List (String × Int)
  token_lifetime : Int

/-- BasicAuthProvider.generate_token from
src/src/nexus/core/security/auth.py as a state transition: the fresh random
token (secrets.token_hex(32)) and the current time are inputs of the
embedding; stores the user info under the token and the absolute expiry
now + token_lifetime. -/
def BasicAuthProvider.generate_token (p : BasicAuthProvider)
    (user_info : Json) (token : String) (now : Int) : BasicAuthProvider :=
  { p with
      tokens := dict_set p.tokens token user_info,
      token_expiry := dict_set p.token_expiry token (now + p.token_lifetime) }

/-- BasicAuthProvider.revoke_token from
src/src/nexus/core/security/auth.py: False when the token is unknown, else
remove it from the token store and the expiry table. -/
def BasicAuthProvider.revoke_token (p : BasicAuthProvider) (token : String) :
    Bool × BasicAuthProvider :=
  if (dict_get? p.tokens token).isNone then (false, p)
  else
    (true,
      { p with
          tokens := dict_del p.tokens token,
          token_expiry := dict_del p.token_expiry token })

/-- BasicAuthProvider.validate_token from
src/src/nexus/core/security/auth.py: None for an unknown token; an expired
token (recorded expiry strictly before the current time) is revoked on
discovery and yields None; otherwise the stored user info. -/
def BasicAuthProvider.validate_token (p : BasicAuthProvider) (token : String)
    (now : Int) : Option Json × BasicAuthProvider :=
  match dict_get? p.tokens token with
  | none => (none, p)
  | some user_info =>
    match dict_get? p.token_expiry token with
    | some expiry =>
      if expiry < now then (none, (p.revoke_token token).2)
      else (some user_info, p)
    | none => (some user_info, p)

/-- State of ClientProtocol from src/src/nexus/core/protocol/client.py.
`inited` embeds the Python field `self.initialized`. -/
structure ClientProtocol where
  inited : Bool
  server_capabilities : Json
  server_info : Json
  client_capabilities : Json

/-- ClientProtocol.__init__: not yet initialized, all trees empty. -/
def ClientProtocol.new : ClientProtocol :=
  ⟨false, .obj [], .obj [], .obj []⟩

/-- ClientProtocol.initialize from src/src/nexus/core/protocol/client.py as
a state transition; `result` is the server's reply to the MCP initialize
request.  An already-initialized protocol returns early without a new
exchange and without touching any state; otherwise the client capabilities
are stored, the server info and the negotiated capability tree
(result.get("capabilities", {})) are cached, and the initialized flag is
set. -/
def ClientProtocol.init_exchange (p : ClientProtocol) (capabilities : Json)
    (result : Json) : ClientProtocol :=
  if p.inited then p
  else
    { p with
        client_capabilities := capabilities,
        server_info := result,
        server_capabilities := result.getD "capabilities" (.obj []),
        inited := true }

/-- ClientProtocol.disconnect from src/src/nexus/core/protocol/client.py:
reset the initialized flag, the capability tree and the server info. -/
def ClientProtocol.disconnect (p : ClientProtocol) : ClientProtocol :=
  { p with
      inited := false,
      server_capabilities := .obj [],
      server_info := .obj [] }

/-- The path walk of ClientProtocol.has_capability: every component must be
a key of a dict at its level (a non-dict level or a missing key fails);
the value reached at the end is never inspected. -/
def capability_walk : List String → Json → Bool
  | [], _ => true
  | part :: parts, current =>
    match current.get? part with
    | some next => capability_walk parts next
    | none => false

/-- ClientProtocol.has_capability from
src/src/nexus/core/protocol/client.py: False before initialization
completes, otherwise the dot-separated path is walked through the
negotiated capability tree. -/
def ClientProtocol.has_capability (p : ClientProtocol)
    (capability_path : String) : Bool :=
  if !p.inited then false
  else capability_walk (py_split capability_path '.') p.server_capabilities

/-- Reading of claim C10's words: every component of the dot-separated path
is present as a dictionary key along the capability tree, regardless of
the value stored at the final component. -/
def path_present_spec : List String → Json → Prop
  | [], _ => True
  | part :: parts, tree =>
    ∃ value, tree.get? part = some value ∧ path_present_spec parts value

/-- Collaborators consulted by HubManager._handle_hub_directed_message in
src/src/nexus/core/hub/manager.py, abstracted as the values their calls
return in the current hub state: the registry and manager counts and
listings for hub/status, hub/servers and hub/clients, and the auth manager
operations for auth/login, auth/logout and auth/validate. -/
structure HubEnv where
  running : Bool
  server_count : Nat
  client_count : Nat
  mcp_server_count : Nat
  mcp_client_count : Nat
  server_statuses : Json
  client_list : Json
  authenticate : Option Json → Json → Option Json
  generate_token : Json → String
  revoke_token : Json → Bool
  validate_token : Json → Option Json

/-- HubManager._handle_hub_directed_message from
src/src/nexus/core/hub/manager.py (lines 1047-1183).  A missing or falsy
method yields None; the six implemented methods build a response dict
carrying the echoed id; EVERY other method only logs "Unsupported hub
method" and returns None - no method-not-found error is built. -/
def handle_hub_directed_message (env : HubEnv) (message : Json) :
    Option Json :=
  match message.get? "method" with
  | none => none
  | some method =>
    if !method.truthy then none
    else
      let msg_id := message.getD "id" .null
      match method with
      | .str s =>
        if s == "hub/status" then
          some (.obj [("id", msg_id),
            ("result", .obj [
              ("status", .str (if env.running then "running" else "stopped")),
              ("server_count", .num env.server_count),
              ("client_count", .num env.client_count),
              ("mcp_server_count", .num env.mcp_server_count),
              ("mcp_client_count", .num env.mcp_client_count)])])
        else if s == "hub/servers" then
          some (.obj [("id", msg_id),
            ("result", .obj [("servers", env.server_statuses)])])
        else if s == "hub/clients" then
          some (.obj [("id", msg_id),
            ("result", .obj [("clients", env.client_list)])])
        else if s == "auth/login" then
          let params := message.getD "params" (.obj [])
          let provider := params.get? "provider"
          let credentials := params.getD "credentials" (.obj [])
          match env.authenticate provider credentials with
          | some user_info =>
            some (.obj [("id", msg_id),
              ("result", .obj [
                ("token", .str (env.generate_token user_info)),
                ("user", user_info)])])
          | none =>
            some (.obj [("id", msg_id),
              ("error", .obj [("code", .num (-32000)),
                ("message", .str "Authentication failed")])])
        else if s == "auth/logout" then
          let params := message.getD "params" (.obj [])
          let token := params.getD "token" .null
          if token.truthy then
            some (.obj [("id", msg_id),
              ("result", .obj [("success", .bool (env.revoke_token token))])])
          else
            some (.obj [("id", msg_id),
              ("error", .obj [("code", .num (-32602)),
                ("message", .str "Missing token parameter")])])
        else if s == "auth/validate" then
          let params := message.getD "params" (.obj [])
          let token := params.getD "token" .null
          if token.truthy then
            match env.validate_token token with
            | some user_info =>
              some (.obj [("id", msg_id),
                ("result", .obj [("valid", .bool true),
                  ("user", user_info)])])
            | none =>
              some (.obj [("id", msg_id),
                ("result", .obj [("valid", .bool false)])])
          else
            some (.obj [("id", msg_id),
              ("error", .obj [("code", .num (-32602)),
                ("message", .str "Missing token parameter")])])
        else none
      | _ => none

/-- The six hub methods _handle_hub_directed_message implements. -/
def implemented_hub_methods : List String :=
  ["hub/status", "hub/servers", "hub/clients",
   "auth/login", "auth/logout", "auth/validate"]

/-- The error code of an optional response dict, when the response carries
an error object with a numeric code. -/
def error_code? (response : Option Json) : Option Int :=
  match response with
  | some r =>
    match r.get? "error" with
    | some e =>
      match e.get? "code" with
      | some (.num c) => some c
      | _ => none
    | none => none
  | none => none

/-- Outcome of one `await connection.interface.forward_message(message)`
call inside a broadcast loop of src/src/nexus/core/hub/manager.py: the call
either raises (the exception is caught and logged) or returns an optional
response dict. -/
inductive ForwardOutcome where
  | raised
  | returned (response : Option Json)

/-- Python truthiness of an optional response dict, as tested by the
broadcast loops' guard `if response and first_response is None`. -/
def forward_truthy : Option Json → Bool
  | none => false
  | some r => r.truthy

/-- One iteration of the broadcast loops of
src/src/nexus/core/hub/manager.py: a raised forward is logged and skipped;
a returned response replaces the accumulator only when it is truthy and no
response was kept yet (`if response and first_response is None`). -/
def broadcast_step (first_response : Option Json)
    (entry : String × ForwardOutcome) : Option Json :=
  match entry.2 with
  | .raised => first_response
  | .returned response =>
    if forward_truthy response && first_response.isNone then response
    else first_response

/-- The accumulating loop shared by the broadcast handlers of
src/src/nexus/core/hub/manager.py: visit every member in iteration order
(forwarding to each one), keep the first truthy response, ignore raised
forwards. -/
def broadcast_loop (members : List (String × ForwardOutcome)) : Option Json :=
  members.foldl broadcast_step none

/-- HubManager._handle_all_servers_message from
src/src/nexus/core/hub/manager.py (lines 927-961): None when no server is
connected, else the broadcast loop over every connection; each member's
forward outcome is an input of the embedding. -/
def handle_all_servers_message (connections : List (String × ForwardOutcome)) :
    Option Json :=
  if connections.isEmpty then none
  else broadcast_loop connections

/-- HubManager._handle_all_clients_message from
src/src/nexus/core/hub/manager.py (lines 963-997): same structure as the
all-servers handler, over the client connections. -/
def handle_all_clients_message (clients : List (String × ForwardOutcome)) :
    Option Json :=
  if clients.isEmpty then none
  else broadcast_loop clients

/-- HubManager._handle_capability_message from
src/src/nexus/core/hub/manager.py (lines 999-1045): None when no server is
connected, filter the connections by has_capability (the flag in each
entry), None when none is capable, else the broadcast loop over the
capable servers. -/
def handle_capability_message
    (connections : List (String × Bool × ForwardOutcome)) : Option Json :=
  if connections.isEmpty then none
  else
    let capable := connections.filter (fun e => e.2.1)
    if capable.isEmpty then none
    else broadcast_loop (capable.map (fun e => (e.1, e.2.2)))

/-- Reading of claim C5's words: the first non-null response among the
members' forward outcomes, in member order. -/
def first_truthy_response (members : List (String × ForwardOutcome)) :
    Option Json :=
  (members.filterMap (fun e =>
    match e.2 with
    | .raised => none
    | .returned response =>
      if forward_truthy response then response else none)).head?

/-- The per-server runtime record of ServerManager (self.servers[server_id])
from src/src/nexus/core/hub/server_manager.py, restricted to the fields the
monitor and start_server read or write. -/
structure ServerInfo where
  running : Bool
  retries : Nat
  auto_restart : Bool
  exit_code : Option Int
deriving DecidableEq, Repr

/-- Supervisor configuration: servers.max_retries (default 3) and the
global servers.auto_restart flag (default True), from
ServerManager.__init__. -/
structure ServerManagerCfg where
  max_retries : Nat
  auto_restart : Bool
deriving DecidableEq, Repr

/-- ServerManager.start_server success path from
src/src/nexus/core/hub/server_manager.py (lines 294-373): when the record
already says running it returns with the record unchanged; otherwise the
server's record is REPLACED by a fresh dict carrying running True and
retries 0 - also when start_server is invoked by _delayed_restart after
the monitor scheduled an automatic restart. -/
def start_server (s : Option ServerInfo) (auto_restart_flag : Bool) :
    ServerInfo :=
  match s with
  | some info =>
    if info.running then info
    else ServerInfo.mk true 0 auto_restart_flag none
  | none => ServerInfo.mk true 0 auto_restart_flag none

/-- The branch of ServerManager._monitor_servers (lines 229-270 of
src/src/nexus/core/hub/server_manager.py) handling a server whose child
has terminated while the record still says running: record the exit; when
the global and per-server auto-restart flags hold and retries is below
max_retries, increment the counter and schedule a delayed restart (the
returned flag); at the retry limit only a terminal error is logged and
nothing is scheduled. -/
def monitor_crash (cfg : ServerManagerCfg) (info : ServerInfo)
    (exit_code : Int) : ServerInfo × Bool :=
  if !info.running then (info, false)
  else
    let info1 := { info with running := false, exit_code := some exit_code }
    if cfg.auto_restart && info.auto_restart then
      if info.retries < cfg.max_retries then
        ({ info1 with retries := info.retries + 1 }, true)
      else (info1, false)
    else (info1, false)

/-- Crash / restart rounds of the always-crashing server of claim C3 after
one explicit start: in each round the monitor observes the termination,
and whenever it scheduled a restart, _delayed_restart later invokes
start_server with the stored config (auto_restart true).  The second
component counts the automatic restarts performed. -/
def crash_restart_rounds (cfg : ServerManagerCfg) : Nat → ServerInfo × Nat
  | 0 => (start_server none true, 0)
  | n + 1 =>
    let round := crash_restart_rounds cfg n
    let step := monitor_crash cfg round.1 1
    if step.2 then (start_server (some step.1) true, round.2 + 1)
    else (step.1, round.2)

/-- Whitespace skipping of the JSON scanner (model of json.loads). -/
def skip_ws : List Char → List Char
  | [] => []
  | c :: rest =>
    if c == ' ' || c == '\t' || c == '\n' || c == '\r' then skip_ws rest
    else c :: rest

/-- String-body scanning of the JSON scanner: the characters up to the
closing quote, decoding the escapes the protocol layer uses. -/
def parse_string_chars : List Char → Option (List Char × List Char)
  | [] => none
  | '"' :: rest => some ([], rest)
  | '\\' :: c :: rest =>
    let esc : Option Char :=
      match c with
      | '\\' => some '\\'
      | '"' => some '"'
      | 'n' => some '\n'
      | 'r' => some '\r'
      | 't' => some '\t'
      | '/' => some '/'
      | _ => none
    match esc with
    | some e => (parse_string_chars rest).map (fun r => (e :: r.1, r.2))
    | none => none
  | ['\\'] => none
  | c :: rest => (parse_string_chars rest).map (fun r => (c :: r.1, r.2))

/-- Digit scanning: the leading run of decimal digits and the remainder. -/
def take_digits : List Char → List Char × List Char
  | [] => ([], [])
  | c :: rest =>
    if c.isDigit then
      let r := take_digits rest
      (c :: r.1, r.2)
    else ([], c :: rest)

/-- Decimal value of a digit run. -/
def digits_to_nat (ds : List Char) : Nat :=
  ds.foldl (fun acc c => acc * 10 + (c.toNat - 48)) 0

mutual

/-- Recursive-descent model of Python json.loads over the JSON fragment the
protocol exchanges (null, booleans, integers, strings, arrays, objects);
the fuel bounds nesting and exceeds any input's depth at the chosen call
site.  An empty or exhausted input yields None, exactly as json.loads
raises JSONDecodeError on an empty document. -/
def parse_value : Nat → List Char → Option (Json × List Char)
  | 0, _ => none
  | fuel + 1, input =>
    match skip_ws input with
    | [] => none
    | c :: rest =>
      if c == '{' then parse_obj_fields fuel rest [] true
      else if c == '[' then parse_arr_items fuel rest [] true
      else if c == '"' then
        match parse_string_chars rest with
        | some (content, rem) => some (.str (String.mk content), rem)
        | none => none
      else if c == 't' then
        match rest with
        | 'r' :: 'u' :: 'e' :: rem => some (.bool true, rem)
        | _ => none
      else if c == 'f' then
        match rest with
        | 'a' :: 'l' :: 's' :: 'e' :: rem => some (.bool false, rem)
        | _ => none
      else if c == 'n' then
        match rest with
        | 'u' :: 'l' :: 'l' :: rem => some (.null, rem)
        | _ => none
      else if c == '-' then
        match take_digits rest with
        | ([], _) => none
        | (ds, rem) => some (.num (-(digits_to_nat ds : Int)), rem)
      else if c.isDigit then
        let r := take_digits (c :: rest)
        some (.num (digits_to_nat r.1), r.2)
      else none

/-- Object-member scanning of the json.loads model; allow_close is False
right after a comma, so a trailing comma is rejected. -/
def parse_obj_fields : Nat → List Char → List (String × Json) → Bool →
    Option (Json × List Char)
  | 0, _, _, _ => none
  | fuel + 1, input, acc, allow_close =>
    match skip_ws input with
    | [] => none
    | c :: rest =>
      if c == '}' then
        if allow_close then some (.obj acc, rest) else none
      else if c == '"' then
        match parse_string_chars rest with
        | none => none
        | some (key, rem1) =>
          match skip_ws rem1 with
          | ':' :: rem2 =>
            match parse_value fuel rem2 with
            | none => none
            | some (v, rem3) =>
              match skip_ws rem3 with
              | ',' :: rem4 =>
                parse_obj_fields fuel rem4 (acc ++ [(String.mk key, v)]) false
              | '}' :: rem4 => some (.obj (acc ++ [(String.mk key, v)]), rem4)
              | _ => none
          | _ => none
      else none

/-- Array-item scanning of the json.loads model. -/
def parse_arr_items : Nat → List Char → List Json → Bool →
    Option (Json × List Char)
  | 0, _, _, _ => none
  | fuel + 1, input, acc, allow_close =>
    match skip_ws input with
    | [] => none
    | c :: rest =>
      if c == ']' then
        if allow_close then some (.arr acc, rest) else none
      else
        match parse_value fuel (c :: rest) with
        | none => none
        | some (v, rem1) =>
          match skip_ws rem1 with
          | ',' :: rem2 => parse_arr_items fuel rem2 (acc ++ [v]) false
          | ']' :: rem2 => some (.arr (acc ++ [v]), rem2)
          | _ => none

end

/-- Model of json.loads: parse one value and require only whitespace after
it; the empty string parses to nothing (JSONDecodeError). -/
def json_loads (s : String) : Option Json :=
  match parse_value (s.length + 1) s.data with
  | some (v, rest) => if (skip_ws rest).isEmpty then some v else none
  | none => none

/-- The branch Protocol.handle_message takes on an inbound frame, from
src/src/nexus/core/protocol/base.py (lines 295-335).  The request,
notification and response branches hand the parsed object to the
registered handlers and the pending-request table; the reply branch is an
immediate error reply that the Python returns as a JSON string. -/
inductive Dispatch where
  | request (data : Json)
  | notif (data : Json)
  | response (data : Json)
  | reply (response : Json)

/-- The parse-error reply of Protocol.handle_message: built on
json.JSONDecodeError as {"jsonrpc": "2.0", "error": {code -32700}, "id":
None}. -/
def parse_error_reply : Json :=
  .obj [("jsonrpc", .str "2.0"),
        ("error", .obj [("code", .num (-32700)),
          ("message", .str "Invalid JSON")]),
        ("id", .null)]

/-- The invalid-request reply of Protocol.handle_message's else branch:
{"jsonrpc": "2.0", "error": {code -32600}, "id": None}. -/
def invalid_request_reply : Json :=
  .obj [("jsonrpc", .str "2.0"),
        ("error", .obj [("code", .num (-32600)),
          ("message", .str "Invalid message format")]),
        ("id", .null)]

/-- The internal-error reply of Protocol.handle_message's generic except
branch (its message text carries the exception's text, not modelled). -/
def internal_error_reply : Json :=
  .obj [("jsonrpc", .str "2.0"),
        ("error", .obj [("code", .num (-32603)),
          ("message", .str "Internal error")]),
        ("id", .null)]

/-- Protocol.handle_message from src/src/nexus/core/protocol/base.py: parse
the frame (failure yields the parse-error reply with id null); an object
with method and id is a request, with method and no id a notification,
with id and result or error a response; anything else yields the
invalid-request reply with id null.  A parsed payload that is a list or a
scalar makes the Python membership test raise, landing in the generic
except branch (internal-error reply); a string payload tests substring
membership and for payloads without the "method" and "id" substrings falls
to the invalid-request reply, the case kept here. -/
def handle_message (message : String) : Dispatch :=
  match json_loads message with
  | none => .reply parse_error_reply
  | some data =>
    match data with
    | .obj _ =>
      if data.hasKey "method" && data.hasKey "id" then .request data
      else if data.hasKey "method" then .notif data
      else if data.hasKey "id" && (data.hasKey "result" || data.hasKey "error") then
        .response data
      else .reply invalid_request_reply
    | .str _ => .reply invalid_request_reply
    | _ => .reply internal_error_reply

/-- The error code carried by a Dispatch, when it is an immediate error
reply. -/
def dispatch_error_code : Dispatch → Option Int
  | .reply r => error_code? (some r)
  | _ => none

/-- The id field carried by a Dispatch when it is an immediate error
reply. -/
def dispatch_reply_id : Dispatch → Option Json
  | .reply r => r.get? "id"
  | _ => none

/-- Content-Length extraction of StdioTransport.receive_messages from
src/src/nexus/core/protocol/transport.py (lines 176-208): scan the
header's CRLF-separated lines for the first line starting with
"Content-Length: " and take the decimal value of the rest of that line
(Python calls int(line[16:]), which raises - crashing the receive loop -
on a non-numeric value; that error case is mapped to None here). -/
def parse_content_length (header : String) : Option Nat :=
  (split_crlf header.data).findSome? (fun line =>
    if starts_with_chars ("Content-Length: ".data) line then
      let digits := line.drop 16
      if !digits.isEmpty && digits.all Char.isDigit then
        some (digits_to_nat digits)
      else none
    else none)

/-- Payload read of StdioTransport.receive_messages: after the header's
blank line the transport reads exactly content_length bytes of the stream
and yields them as the message (readexactly(0) yields the empty string,
handed to the dispatcher unchanged). -/
def stdio_frame_payload (content_length : Nat) (stream : String) : String :=
  String.mk (stream.data.take content_length)

/-- An ALL_CLIENTS message source, as built for every remote client
message. -/
def source_all_clients : RouteTarget :=
  ⟨RouteType.ALL_CLIENTS, none, none⟩

/-- The first default route of MessageRouter._initialize_default_routes:
all clients to the hub, any method. -/
def route_client_to_hub : Route :=
  ⟨source_all_clients, ⟨RouteType.HUB, none, none⟩, none⟩

/-- A second route with the same source: all clients to all servers, any
method. -/
def route_client_to_all_servers : Route :=
  ⟨source_all_clients, ⟨RouteType.ALL_SERVERS, none, none⟩, none⟩

/-- A role carrying two resource entries that both match the query
(server, s1): the first (all servers) grants only SERVER_VIEW, the second
(server s1 specifically) grants SERVER_DELETE. -/
def role_two_entries : Role :=
  ⟨"r", none,
   [(⟨"server", none⟩, [.SERVER_VIEW]),
    (⟨"server", some "s1"⟩, [.SERVER_DELETE])]⟩

/-- An access control list holding role_two_entries, assigned to user u. -/
def acl_c2 : AccessControlList :=
  ⟨[("r", role_two_entries)], [("u", ["r"])]⟩

/-- A hub environment with no registered servers or clients and an auth
manager that rejects everything (its contents are irrelevant to the
method-dispatch claims). -/
def hub_env_trivial : HubEnv :=
  ⟨true, 0, 0, 0, 0, Json.arr [], Json.arr [],
   fun _ _ => none, fun _ => "", fun _ => false, fun _ => none⟩

/-! Shared lemmas about the dict embedding and the router's staged
filtering, used by several claim theorems below. -/

theorem dict_get?_nil {α β : Type} [BEq α] (k : α) :
    dict_get? ([] : List (α × β)) k = none := rfl

theorem dict_get?_cons {α β : Type} [BEq α] (e : α × β) (l : List (α × β))
    (k : α) :
    dict_get? (e :: l) k = if e.1 == k then some e.2 else dict_get? l k := by
  unfold dict_get?
  rw [List.find?_cons]
  cases h : (e.1 == k) <;> simp [h]

theorem dict_get?_set_self {α β : Type} [BEq α] [LawfulBEq α]
    (l : List (α × β)) (k : α) (v : β) :
    dict_get? (dict_set l k v) k = some v := by
  unfold dict_set
  by_cases h : (dict_get? l k).isSome
  · rw [if_pos h]
    induction l with
    | nil => simp [dict_get?] at h
    | cons e rest ih =>
      rw [List.map_cons]
      by_cases he : (e.1 == k) = true
      · rw [if_pos he, dict_get?_cons]
        simp
      · rw [if_neg he, dict_get?_cons, if_neg he]
        rw [dict_get?_cons, if_neg he] at h
        exact ih h
  · rw [if_neg h]
    unfold dict_get?
    rw [List.find?_append]
    unfold dict_get? at h
    cases hf : List.find? (fun e => e.1 == k) l with
    | some e => rw [hf] at h; simp at h
    | none => simp [List.find?]

theorem dict_get?_del_self {α β : Type} [BEq α] [LawfulBEq α]
    (l : List (α × β)) (k : α) :
    dict_get? (dict_del l k) k = none := by
  unfold dict_del
  induction l with
  | nil => rfl
  | cons e rest ih =>
    by_cases he : (e.1 == k) = true
    · have : (e.1 != k) = false := by simp [bne] at *; simp [he]
      rw [List.filter_cons, this]
      exact ih
    · have : (e.1 != k) = true := by simp [bne, he]
      rw [List.filter_cons, this]
      simp only [ite_true]
      rw [dict_get?_cons, if_neg he]
      exact ih

theorem dict_get?_map_snd {α β γ : Type} [BEq α] (l : List (α × β))
    (f : β → γ) (k : α) :
    dict_get? (l.map (fun e => (e.1, f e.2))) k = (dict_get? l k).map f := by
  induction l with
  | nil => rfl
  | cons e rest ih =>
    rw [List.map_cons, dict_get?_cons, dict_get?_cons]
    by_cases he : (e.1 == k) = true
    · rw [if_pos he, if_pos he]
      rfl
    · rw [if_neg he, if_neg he]
      exact ih

theorem dict_get?_eq_some_mem {α β : Type} [BEq α] [LawfulBEq α]
    {l : List (α × β)} {k : α} {v : β} (h : dict_get? l k = some v) :
    (k, v) ∈ l := by
  unfold dict_get? at h
  cases hf : List.find? (fun e => e.1 == k) l with
  | none => rw [hf] at h; simp at h
  | some e =>
    rw [hf] at h
    have hmem := List.mem_of_find?_eq_some hf
    have hkey := List.find?_some hf
    simp at hkey h
    have : e = (k, v) := by
      cases e
      simp_all
    rw [← this]
    exact hmem

theorem filter_three_stage {α : Type} (l : List α) (A B C : α → Bool) :
    (if (l.filter A).isEmpty then []
     else if ((l.filter A).filter B).isEmpty then []
     else ((l.filter A).filter B).filter C)
      = l.filter (fun r => (C r && B r) && A r) := by
  have hcomp : ((l.filter A).filter B).filter C
      = l.filter (fun r => (C r && B r) && A r) := by
    rw [List.filter_filter B (l.filter A), List.filter_filter A l]
  by_cases hA : (l.filter A).isEmpty
  · rw [if_pos hA, ← hcomp, List.isEmpty_iff.mp hA]
    simp
  · rw [if_neg hA]
    by_cases hB : ((l.filter A).filter B).isEmpty
    · rw [if_pos hB, ← hcomp, List.isEmpty_iff.mp hB]
      simp
    · rw [if_neg hB, hcomp]

theorem filter_two_stage {α : Type} (l : List α) (A C : α → Bool) :
    (if (l.filter A).isEmpty then []
     else if (l.filter A).isEmpty then []
     else (l.filter A).filter C)
      = l.filter (fun r => C r && A r) := by
  by_cases hA : (l.filter A).isEmpty
  · rw [if_pos hA, ← List.filter_filter A l, List.isEmpty_iff.mp hA]
    simp
  · rw [if_neg hA, if_neg hA, List.filter_filter A l]

theorem get_matching_routes_eq_filter (routes : List Route)
    (source : RouteTarget) (method : String) :
    get_matching_routes routes source method
      = routes.filter (fun route =>
          (route.matches_method method && source_id_match route source)
            && source_type_match route source) := by
  unfold get_matching_routes source_id_match source_type_match
  cases h1 : ((source.route_type == RouteType.SERVER
      || source.route_type == RouteType.CLIENT) && source.target_id.isSome)
  · cases h2 : ((source.route_type == RouteType.CAPABILITY)
        && source.capability.isSome)
    · simp only [h1, h2, Bool.false_eq_true, if_false]
      have := filter_two_stage routes
        (fun route => route.source.route_type == source.route_type)
        (fun route => route.matches_method method)
      simp only [Bool.and_true] at *
      exact this
    · simp only [h1, h2, Bool.false_eq_true, if_false, if_true]
      exact filter_three_stage routes
        (fun route => route.source.route_type == source.route_type)
        (fun route => route.source.capability == source.capability)
        (fun route => route.matches_method method)
  · simp only [h1, if_true]
    exact filter_three_stage routes
      (fun route => route.source.route_type == source.route_type)
      (fun route => route.source.target_id == source.target_id)
      (fun route => route.matches_method method)

/-- C1, counterexample to the insertion-order part: the router's routes
live in a Python set, whose iteration order is an arbitrary enumeration of
its members.  After inserting route_client_to_hub then
route_client_to_all_servers, the reversed enumeration is an admissible
iteration order, and on it get_matching_routes returns the two matching
routes in reversed -- not insertion -- order. -/
theorem C1_insertion_order_counterexample :
    set_iteration_of [route_client_to_hub, route_client_to_all_servers]
      [route_client_to_all_servers, route_client_to_hub] ∧
    get_matching_routes [route_client_to_all_servers, route_client_to_hub]
      source_all_clients "tools/call"
      = [route_client_to_all_servers, route_client_to_hub] ∧
    [route_client_to_all_servers, route_client_to_hub]
      ≠ [route_client_to_hub, route_client_to_all_servers] := by
  refine ⟨?_, by decide, by decide⟩
  refine ⟨by decide, ?_, ?_⟩ <;> · intro r hr; fin_cases hr <;> decide

/-- C1 (amended): for every route set, iteration order of that set, and
(source, method) pair, get_matching_routes returns exactly the inserted
routes that pass all three filters (source route-type match,
target-id/capability match when the source carries one, method-pattern
match); the returned list preserves the relative order of the set's
iteration (it is a sublist of it), but the set does not record insertion
order. -/
theorem C1_matching_routes (inserted iter : List Route)
    (source : RouteTarget) (method : String)
    (hiter : set_iteration_of inserted iter) :
    (∀ route : Route,
        route ∈ get_matching_routes iter source method ↔
          route ∈ inserted ∧ source_type_match route source = true
            ∧ source_id_match route source = true
            ∧ route.matches_method method = true) ∧
    (get_matching_routes iter source method).Sublist iter := by
  constructor
  · intro route
    rw [get_matching_routes_eq_filter, List.mem_filter]
    constructor
    · rintro ⟨hmem, hp⟩
      simp only [Bool.and_eq_true] at hp
      exact ⟨hiter.2.1 hmem, hp.2, hp.1.2, hp.1.1⟩
    · rintro ⟨hmem, hA, hB, hC⟩
      refine ⟨hiter.2.2 hmem, ?_⟩
      simp [hA, hB, hC]
  · rw [get_matching_routes_eq_filter]
    exact List.filter_sublist _

/-- Witness for C1_matching_routes: the singleton route set iterated as
itself, queried with an ALL_CLIENTS source. -/
theorem C1_matching_routes_witness :
    (route_client_to_hub
        ∈ get_matching_routes [route_client_to_hub] source_all_clients
            "tools/call" ↔
      route_client_to_hub ∈ [route_client_to_hub]
        ∧ source_type_match route_client_to_hub source_all_clients = true
        ∧ source_id_match route_client_to_hub source_all_clients = true
        ∧ route_client_to_hub.matches_method "tools/call" = true) ∧
    (get_matching_routes [route_client_to_hub] source_all_clients
        "tools/call").Sublist [route_client_to_hub] := by
  have h := C1_matching_routes [route_client_to_hub] [route_client_to_hub]
    source_all_clients "tools/call"
    ⟨by decide, fun r hr => hr, fun r hr => hr⟩
  exact ⟨h.1 route_client_to_hub, h.2⟩

/-- C2, counterexample: role_two_entries has two entries matching the
query (server, s1); the first grants only SERVER_VIEW, the second grants
SERVER_DELETE.  The claim's reading answers True for SERVER_DELETE, but
Role.has_permission returns on the first matching entry, so
AccessControlList.has_permission answers False. -/
theorem C2_first_match_counterexample :
    acl_has_permission_spec acl_c2 "u" ⟨"server", some "s1"⟩
      Permission.SERVER_DELETE = true ∧
    acl_c2.has_permission "u" ⟨"server", some "s1"⟩
      Permission.SERVER_DELETE = false := by
  constructor <;> decide

/-- C2 (amended): has_permission returns true iff some role assigned to
the user exists in the role table and the FIRST resource entry of that
role matching the queried resource (in entry insertion order) has a
permission set containing the queried permission; later matching entries
of the same role are never consulted. -/
theorem C2_has_permission_first_match (acl : AccessControlList)
    (username : String) (resource : Resource) (permission : Permission) :
    acl.has_permission username resource permission = true ↔
      ∃ role_name ∈ acl.get_user_roles username, ∃ role,
        dict_get? acl.roles role_name = some role ∧
        ∃ entry, role.permissions.find?
            (fun e => e.1.matches resource) = some entry
          ∧ permission ∈ entry.2 := by
  have hrole_iff : ∀ (role : Role), role.has_permission resource permission
        = true ↔
      ∃ entry, role.permissions.find?
          (fun e => e.1.matches resource) = some entry
        ∧ permission ∈ entry.2 := by
    intro role
    unfold Role.has_permission
    cases hfind : role.permissions.find? (fun e => e.1.matches resource) with
    | none => simp
    | some entry => simp [List.elem_iff]
  unfold AccessControlList.has_permission
  rw [List.any_eq_true]
  constructor
  · rintro ⟨role_name, hmem, hp⟩
    refine ⟨role_name, hmem, ?_⟩
    revert hp
    cases hrole : dict_get? acl.roles role_name with
    | none => intro hp; simp at hp
    | some role =>
      intro hp
      exact ⟨role, rfl, (hrole_iff role).mp hp⟩
  · rintro ⟨role_name, hmem, role, hrole, entry, hfind, hperm⟩
    refine ⟨role_name, hmem, ?_⟩
    rw [hrole]
    exact (hrole_iff role).mpr ⟨entry, hfind, hperm⟩

/-- C3, code bug: an always-crashing server with auto_restart true and
max_retries 3 is restarted automatically in EVERY round, without bound:
_delayed_restart invokes start_server, which replaces the record with
retries 0, so the monitor's counter never reaches max_retries.  After 4
rounds 4 automatic restarts have occurred, exceeding the claimed bound of
3; the round count grows with n forever. -/
theorem C3_retry_counter_reset :
    (∀ n, (crash_restart_rounds ⟨3, true⟩ n).1
        = ServerInfo.mk true 0 true none
      ∧ (crash_restart_rounds ⟨3, true⟩ n).2 = n) ∧
    (crash_restart_rounds ⟨3, true⟩ 4).2 = 4 ∧
    ¬(crash_restart_rounds ⟨3, true⟩ 4).2 ≤ 3 := by
  have key : ∀ n, (crash_restart_rounds ⟨3, true⟩ n).1
      = ServerInfo.mk true 0 true none
      ∧ (crash_restart_rounds ⟨3, true⟩ n).2 = n := by
    intro n
    induction n with
    | zero => exact ⟨rfl, rfl⟩
    | succ n ih =>
      constructor
      · simp only [crash_restart_rounds, ih.1, ih.2]
        rfl
      · simp only [crash_restart_rounds, ih.1, ih.2]
        rfl
  refine ⟨key, (key 4).2, ?_⟩
  rw [(key 4).2]
  omega

/-- C4, counterexample: a request addressed to the hub with the unknown
method hub/unknown yields None from _handle_hub_directed_message - no
response at all - rather than a method-not-found (-32601) error
response. -/
theorem C4_unknown_method_counterexample :
    handle_hub_directed_message hub_env_trivial
      (Json.obj [("id", Json.str "1"), ("method", Json.str "hub/unknown")])
      = none ∧
    error_code? (handle_hub_directed_message hub_env_trivial
      (Json.obj [("id", Json.str "1"), ("method", Json.str "hub/unknown")]))
      ≠ some (-32601) := by
  exact ⟨rfl, by decide⟩

/-- C4 (amended): for every hub state and every request whose method is a
string other than the six implemented hub methods,
_handle_hub_directed_message logs a warning and returns None (no
response); no method-not-found error response is built there. -/
theorem C4_unknown_hub_method_none (env : HubEnv) (message : Json)
    (m : String) (hm : message.get? "method" = some (.str m))
    (hnot : m ∉ implemented_hub_methods) :
    handle_hub_directed_message env message = none := by
  simp only [implemented_hub_methods, List.mem_cons, List.not_mem_nil,
    or_false, not_or] at hnot
  obtain ⟨h1, h2, h3, h4, h5, h6⟩ := hnot
  simp only [handle_hub_directed_message, hm]
  by_cases hemp : m.isEmpty
  · simp [Json.truthy, hemp]
  · simp [Json.truthy, hemp, beq_iff_eq, h1, h2, h3, h4, h5, h6]

/-- Witness for C4_unknown_hub_method_none: the unknown method foo/bar on
the trivial hub environment. -/
theorem C4_unknown_hub_method_none_witness :
    handle_hub_directed_message hub_env_trivial
      (Json.obj [("method", Json.str "foo/bar")]) = none :=
  C4_unknown_hub_method_none hub_env_trivial
    (Json.obj [("method", Json.str "foo/bar")]) "foo/bar" rfl (by decide)

/-- Step lemma: once a response is kept, the broadcast loop never replaces
it. -/
theorem foldl_broadcast_some (members : List (String × ForwardOutcome))
    (r : Json) :
    members.foldl broadcast_step (some r) = some r := by
  induction members with
  | nil => rfl
  | cons e rest ih =>
    rw [List.foldl_cons]
    have hstep : broadcast_step (some r) e = some r := by
      rcases e with ⟨s, o⟩
      cases o with
      | raised => rfl
      | returned resp => simp [broadcast_step]
    rw [hstep, ih]

/-- The broadcast loop returns the first truthy response in member
order. -/
theorem broadcast_loop_eq_first_truthy
    (members : List (String × ForwardOutcome)) :
    broadcast_loop members = first_truthy_response members := by
  induction members with
  | nil => rfl
  | cons e rest ih =>
    unfold broadcast_loop first_truthy_response at *
    rcases e with ⟨s, o⟩
    cases o with
    | raised =>
      rw [List.foldl_cons, List.filterMap_cons]
      exact ih
    | returned resp =>
      rw [List.foldl_cons, List.filterMap_cons]
      by_cases ht : forward_truthy resp = true
      · cases resp with
        | none => simp [forward_truthy] at ht
        | some r =>
          have hstep : broadcast_step none (s, ForwardOutcome.returned
            (some r)) = some r := by simp [broadcast_step, ht]
          rw [hstep, foldl_broadcast_some]
          simp [ht]
      · have hstep : broadcast_step none (s, ForwardOutcome.returned resp)
            = none := by
          simp [broadcast_step]
          intro hc
          exact absurd hc ht
        rw [hstep]
        simp only [ht, Bool.false_eq_true, if_false]
        exact ih

/-- C5, counterexample: when the only connected server's forward raises,
_handle_all_servers_message (and likewise _handle_capability_message for a
capable server) returns None - no response reaches the caller - instead of
the claimed internal-error (-32603) response.  Moreover a member returning
the empty dict - which is non-null in Python - is skipped by the
`if response` truthiness guard, so "first non-null response" fails too:
the handler returns None although a non-null response arrived. -/
theorem C5_all_fail_counterexample :
    handle_all_servers_message [("s1", ForwardOutcome.raised)] = none ∧
    error_code? (handle_all_servers_message
      [("s1", ForwardOutcome.raised)]) ≠ some (-32603) ∧
    handle_capability_message [("s1", true, ForwardOutcome.raised)]
        = none ∧
    error_code? (handle_capability_message
      [("s1", true, ForwardOutcome.raised)]) ≠ some (-32603) ∧
    handle_all_servers_message
      [("s1", ForwardOutcome.returned (some (Json.obj [])))] = none ∧
    (some (Json.obj []) : Option Json) ≠ none := by
  refine ⟨rfl, by decide, rfl, by decide, rfl, ?_⟩
  intro h
  exact Option.noConfusion h

/-- C5 (amended): the ALL_SERVERS, ALL_CLIENTS and CAPABILITY request
handlers forward to every member (for CAPABILITY, every member declaring
the capability) and return the first truthy (non-None, non-empty) response
in member order; when there are no members (for CAPABILITY, no capable
members), or every member's forward raises, they return None - no
internal-error response is built. -/
theorem C5_broadcast_first_truthy
    (connections clients : List (String × ForwardOutcome))
    (capability_connections : List (String × Bool × ForwardOutcome))
    (members : List String) :
    handle_all_servers_message connections
        = first_truthy_response connections ∧
    handle_all_clients_message clients = first_truthy_response clients ∧
    handle_capability_message capability_connections
        = first_truthy_response
            ((capability_connections.filter (fun e => e.2.1)).map
              (fun e => (e.1, e.2.2))) ∧
    handle_all_servers_message
        (members.map (fun s => (s, ForwardOutcome.raised))) = none ∧
    handle_capability_message
        (members.map (fun s => (s, true, ForwardOutcome.raised)))
        = none := by
  have handler_eq : ∀ l : List (String × ForwardOutcome),
      (if l.isEmpty then none else broadcast_loop l)
        = first_truthy_response l := by
    intro l
    by_cases h : l.isEmpty
    · rw [if_pos h, List.isEmpty_iff.mp h]
      rfl
    · rw [if_neg h]
      exact broadcast_loop_eq_first_truthy l
  have all_raised : ∀ ms : List String,
      first_truthy_response (ms.map (fun s => (s, ForwardOutcome.raised)))
        = none := by
    intro ms
    unfold first_truthy_response
    rw [List.filterMap_map]
    have hnil : ∀ ms' : List String,
        ms'.filterMap ((fun e : String × ForwardOutcome =>
          match e.2 with
          | .raised => none
          | .returned response =>
            if forward_truthy response then response else none)
            ∘ (fun s => (s, ForwardOutcome.raised))) = [] := by
      intro ms'
      induction ms' with
      | nil => rfl
      | cons x xs ih => rw [List.filterMap_cons]; exact ih
    rw [hnil]
    rfl
  have cap_eq : ∀ l : List (String × Bool × ForwardOutcome),
      handle_capability_message l
        = first_truthy_response ((l.filter (fun e => e.2.1)).map
            (fun e => (e.1, e.2.2))) := by
    intro l
    unfold handle_capability_message
    by_cases h : l.isEmpty
    · rw [if_pos h, List.isEmpty_iff.mp h]
      rfl
    · rw [if_neg h]
      by_cases hc : (l.filter (fun e => e.2.1)).isEmpty
      · rw [if_pos hc, List.isEmpty_iff.mp hc]
        rfl
      · rw [if_neg hc]
        exact broadcast_loop_eq_first_truthy _
  have cap_all : ∀ ms : List String,
      ((ms.map (fun s => (s, true, ForwardOutcome.raised))).filter
          (fun e => e.2.1)).map (fun e => (e.1, e.2.2))
        = ms.map (fun s => (s, ForwardOutcome.raised)) := by
    intro ms
    induction ms with
    | nil => rfl
    | cons x xs ih =>
      rw [List.map_cons, List.filter_cons]
      simp only [ite_true]
      rw [List.map_cons, ih]
      rfl
  refine ⟨handler_eq connections, handler_eq clients,
    cap_eq capability_connections, ?_, ?_⟩
  · rw [show handle_all_servers_message
        (members.map (fun s => (s, ForwardOutcome.raised)))
      = first_truthy_response (members.map (fun s =>
          (s, ForwardOutcome.raised))) from handler_eq _]
    exact all_raised members
  · rw [cap_eq, cap_all]
    exact all_raised members

/-- C6, counterexample: a Content-Length 0 frame yields the empty payload,
and the dispatcher's json.loads fails on it, producing a parse-error
(-32700) reply - not the claimed invalid-request (-32600). -/
theorem C6_zero_frame_counterexample :
    stdio_frame_payload 0 "ignored" = "" ∧
    dispatch_error_code (handle_message "") = some (-32700) ∧
    dispatch_error_code (handle_message "") ≠ some (-32600) := by
  exact ⟨rfl, rfl, by decide⟩

/-- C6 (amended): a Content-Length 0 frame hands the empty string to the
dispatcher; its JSON parse fails, so the dispatcher replies with the
parse-error (-32700) response carrying id null.  (An actual "{}" payload
would produce the invalid-request (-32600) reply with id null, as the
claim describes.) -/
theorem C6_zero_frame_parse_error :
    parse_content_length "Content-Length: 0\r\n\r\n" = some 0 ∧
    (∀ stream : String, stdio_frame_payload 0 stream = "") ∧
    handle_message "" = .reply parse_error_reply ∧
    dispatch_error_code (handle_message "") = some (-32700) ∧
    dispatch_reply_id (handle_message "") = some .null ∧
    handle_message "{}" = .reply invalid_request_reply ∧
    dispatch_error_code (handle_message "{}") = some (-32600) ∧
    dispatch_reply_id (handle_message "{}") = some .null := by
  refine ⟨rfl, ?_, rfl, rfl, rfl, rfl, rfl, rfl⟩
  intro stream
  rfl

/-- C7: validating a token freshly generated for a profile returns that
profile as long as the token's lifetime has not elapsed, and validating
after a revocation (successful or not) returns none. -/
theorem C7_token_lifecycle (p : BasicAuthProvider) (user_info : Json)
    (token : String) (t0 t1 : Int)
    (h : t1 ≤ t0 + p.token_lifetime) :
    ((p.generate_token user_info token t0).validate_token token t1).1
        = some user_info ∧
    (∀ (q : BasicAuthProvider) (t2 : Int),
      (((q.revoke_token token).2).validate_token token t2).1 = none) := by
  constructor
  · simp only [BasicAuthProvider.generate_token,
      BasicAuthProvider.validate_token, dict_get?_set_self]
    rw [if_neg (by omega)]
  · intro q t2
    unfold BasicAuthProvider.revoke_token
    by_cases hq : (dict_get? q.tokens token).isNone
    · rw [if_pos hq]
      simp only [BasicAuthProvider.validate_token]
      rw [Option.isNone_iff_eq_none.mp hq]
    · rw [if_neg hq]
      simp only [BasicAuthProvider.validate_token]
      rw [show dict_get? (dict_del q.tokens token) token = none from
        dict_get?_del_self q.tokens token]

/-- Witness for C7_token_lifecycle: an empty provider with the default
3600 second lifetime, token generated at time 0 and validated at 10. -/
theorem C7_token_lifecycle_witness :
    (((BasicAuthProvider.mk [] [] [] 3600).generate_token
        (Json.obj [("username", Json.str "u")]) "tok" 0).validate_token
        "tok" 10).1 = some (Json.obj [("username", Json.str "u")]) ∧
    ((((BasicAuthProvider.mk [] [] [] 3600).generate_token
        (Json.obj [("username", Json.str "u")]) "tok" 0).revoke_token
        "tok").2.validate_token "tok" 10).1 = none := by
  have h := C7_token_lifecycle (BasicAuthProvider.mk [] [] [] 3600)
    (Json.obj [("username", Json.str "u")]) "tok" 0 10
    (by show (10 : Int) ≤ 0 + 3600; omega)
  exact ⟨h.1, h.2 _ 10⟩

/-- C8: before initialization completes every capability query returns
false; an initialize exchange on an uninitialized protocol makes every
query consult exactly the tree negotiated in that exchange
(result.get("capabilities", {})); and a repeated initialize on an already
initialized protocol performs no new exchange and changes nothing, so the
consulted tree is always the most recently negotiated one. -/
theorem C8_capability_gating :
    (∀ (p : ClientProtocol) (path : String),
      p.inited = false → p.has_capability path = false) ∧
    (∀ (p : ClientProtocol) (caps result : Json) (path : String),
      p.inited = false →
        (p.init_exchange caps result).has_capability path
          = capability_walk (py_split path '.')
              (result.getD "capabilities" (.obj []))) ∧
    (∀ (p : ClientProtocol) (caps result : Json),
      p.inited = true → p.init_exchange caps result = p) := by
  refine ⟨?_, ?_, ?_⟩
  · intro p path h
    simp [ClientProtocol.has_capability, h]
  · intro p caps result path h
    simp [ClientProtocol.init_exchange, ClientProtocol.has_capability, h]
  · intro p caps result h
    simp [ClientProtocol.init_exchange, h]

/-- Witness for C8_capability_gating: a fresh protocol answers false, and
after one initialize exchange it consults the tree of that exchange. -/
theorem C8_capability_gating_witness :
    ClientProtocol.new.has_capability "resources" = false ∧
    (ClientProtocol.new.init_exchange (Json.obj [])
        (Json.obj [("capabilities",
          Json.obj [("resources", Json.obj [])])])).has_capability
        "resources"
      = capability_walk (py_split "resources" '.')
          ((Json.obj [("capabilities",
            Json.obj [("resources", Json.obj [])])]).getD "capabilities"
            (.obj [])) := by
  exact ⟨C8_capability_gating.1 ClientProtocol.new "resources" rfl,
    C8_capability_gating.2.1 ClientProtocol.new (Json.obj [])
      (Json.obj [("capabilities", Json.obj [("resources", Json.obj [])])])
      "resources" rfl⟩

/-- The capability walk succeeds exactly when every path component is
present as a dictionary key along the tree. -/
theorem capability_walk_iff (parts : List String) (tree : Json) :
    capability_walk parts tree = true ↔ path_present_spec parts tree := by
  induction parts generalizing tree with
  | nil => simp [capability_walk, path_present_spec]
  | cons part rest ih =>
    unfold capability_walk path_present_spec
    cases hg : tree.get? part with
    | none => simp
    | some next => simp [ih next]

/-- C10: on an initialized client protocol, has_capability answers true
exactly when every component of the dot-separated path is present as a
dictionary key along the negotiated capability tree, regardless of the
value stored at the final component; in particular a capability declared
with value false is still reported as supported. -/
theorem C10_path_presence (p : ClientProtocol) (path : String)
    (h : p.inited = true) :
    (p.has_capability path = true ↔
      path_present_spec (py_split path '.') p.server_capabilities) ∧
    (ClientProtocol.mk true (Json.obj [("resources", Json.bool false)])
      (Json.obj []) (Json.obj [])).has_capability "resources" = true := by
  constructor
  · simp only [ClientProtocol.has_capability, h, Bool.not_true,
      Bool.false_eq_true, if_false]
    exact capability_walk_iff (py_split path '.') p.server_capabilities
  · rfl

/-- Witness for C10_path_presence: the protocol whose negotiated tree is
(resources: false), queried for "resources". -/
theorem C10_path_presence_witness :
    ((ClientProtocol.mk true (Json.obj [("resources", Json.bool false)])
        (Json.obj []) (Json.obj [])).has_capability "resources" = true ↔
      path_present_spec (py_split "resources" '.')
        (ClientProtocol.mk true (Json.obj [("resources", Json.bool false)])
          (Json.obj []) (Json.obj [])).server_capabilities) ∧
    (ClientProtocol.mk true (Json.obj [("resources", Json.bool false)])
      (Json.obj []) (Json.obj [])).has_capability "resources" = true :=
  C10_path_presence
    (ClientProtocol.mk true (Json.obj [("resources", Json.bool false)])
      (Json.obj []) (Json.obj [])) "resources" rfl

/-- Stripping a role from a duplicate-free list keeps it duplicate-free. -/
theorem strip_role_nodup (role_name : String) (lst : List String)
    (h : lst.Nodup) : (strip_role role_name lst).Nodup := by
  unfold strip_role
  by_cases hc : lst.contains role_name
  · rw [if_pos hc]
    exact h.erase role_name
  · rw [if_neg hc]
    exact h

/-- Stripping a role from a duplicate-free list removes every occurrence
(there is at most one). -/
theorem strip_role_not_mem (role_name : String) (lst : List String)
    (h : lst.Nodup) : role_name ∉ strip_role role_name lst := by
  unfold strip_role
  by_cases hc : lst.contains role_name
  · rw [if_pos hc]
    intro hmem
    exact ((h.mem_erase_iff).mp hmem).1 rfl
  · rw [if_neg hc]
    intro hmem
    exact hc (by simpa [List.elem_iff] using hmem)

/-- An entry of a dict after an assignment is an original entry or the
assigned pair. -/
theorem mem_dict_set {α β : Type} [BEq α] [LawfulBEq α]
    {l : List (α × β)} {k : α} {v : β} {e : α × β}
    (h : e ∈ dict_set l k v) : e ∈ l ∨ e = (k, v) := by
  unfold dict_set at h
  by_cases hs : (dict_get? l k).isSome
  · rw [if_pos hs] at h
    rcases List.mem_map.mp h with ⟨a, ha, hae⟩
    by_cases hk : (a.1 == k) = true
    · rw [if_pos hk] at hae
      exact Or.inr hae.symm
    · rw [if_neg hk] at hae
      exact Or.inl (hae ▸ ha)
  · rw [if_neg hs] at h
    rcases List.mem_append.mp h with ha | ha
    · exact Or.inl ha
    · exact Or.inr (List.mem_singleton.mp ha)

/-- The duplicate-free invariant on user assignment lists holds in the
default construction and is preserved by every AccessControlList
operation. -/
theorem aclop_preserves_nodup (op : AclOp) (acl : AccessControlList)
    (h : acl_user_roles_nodup acl) : acl_user_roles_nodup (op.apply acl) := by
  cases op with
  | add role => exact h
  | remove n =>
    show acl_user_roles_nodup (acl.remove_role n).2
    unfold AccessControlList.remove_role
    by_cases hr : (dict_get? acl.roles n).isNone
    · rw [if_pos hr]
      exact h
    · rw [if_neg hr]
      intro e he
      rcases List.mem_map.mp he with ⟨a, ha, hae⟩
      rw [← hae]
      exact strip_role_nodup n a.2 (h a ha)
  | assign u n =>
    show acl_user_roles_nodup (acl.assign_role u n).2
    unfold AccessControlList.assign_role
    by_cases hr : (dict_get? acl.roles n).isNone
    · rw [if_pos hr]
      exact h
    · rw [if_neg hr]
      have hbase : acl_user_roles_nodup
          ⟨acl.roles, if (dict_get? acl.user_roles u).isSome then
            acl.user_roles else acl.user_roles ++ [(u, [])]⟩ := by
        intro e he
        by_cases hu : (dict_get? acl.user_roles u).isSome
        · rw [if_pos hu] at he
          exact h e he
        · rw [if_neg hu] at he
          rcases List.mem_append.mp he with ha | ha
          · exact h e ha
          · rw [List.mem_singleton.mp ha]
            exact List.nodup_nil
      set base := if (dict_get? acl.user_roles u).isSome then
        acl.user_roles else acl.user_roles ++ [(u, [])] with hbase_def
      set current := (dict_get? base u).getD [] with hcur_def
      have hcur : current.Nodup := by
        rw [hcur_def]
        cases hg : dict_get? base u with
        | none => exact List.nodup_nil
        | some lst =>
          exact hbase (u, lst) (dict_get?_eq_some_mem hg)
      by_cases hc : current.contains n
      · rw [if_pos hc]
        exact hbase
      · rw [if_neg hc]
        intro e he
        rcases mem_dict_set he with ha | ha
        · exact hbase e ha
        · rw [ha]
          rw [List.nodup_append]
          refine ⟨hcur, List.nodup_singleton n, ?_⟩
          intro x hx hxn
          rw [List.mem_singleton.mp hxn] at hx
          exact hc (by simpa [List.elem_iff] using hx)
  | revoke u n =>
    show acl_user_roles_nodup (acl.revoke_role u n).2
    unfold AccessControlList.revoke_role
    cases hu : dict_get? acl.user_roles u with
    | none => exact h
    | some lst =>
      by_cases hc : lst.contains n
      · simp only [hc, Bool.not_true, Bool.false_eq_true, if_false]
        intro e he
        have hlst : lst.Nodup := h (u, lst) (dict_get?_eq_some_mem hu)
        by_cases hemp : (lst.erase n).isEmpty
        · rw [if_pos hemp] at he
          exact h e (List.mem_of_mem_filter he)
        · rw [if_neg hemp] at he
          rcases mem_dict_set he with ha | ha
          · exact h e ha
          · rw [ha]
            exact hlst.erase n
      · simp only [hc, Bool.not_false, if_true]
        exact h

/-- The duplicate-free invariant holds on every API-reachable
AccessControlList state. -/
theorem acl_after_nodup (ops : List AclOp) :
    acl_user_roles_nodup (acl_after ops) := by
  have hgen : ∀ (acc : AccessControlList), acl_user_roles_nodup acc →
      acl_user_roles_nodup
        (ops.foldl (fun acl op => op.apply acl) acc) := by
    induction ops with
    | nil => intro acc hacc; exact hacc
    | cons op rest ih =>
      intro acc hacc
      exact ih (op.apply acc) (aclop_preserves_nodup op acc hacc)
  refine hgen default_access_control_list ?_
  intro e he
  simp [default_access_control_list] at he

/-- On a state whose user lists are duplicate-free, a successful
remove_role leaves the removed name in no user's assignment list. -/
theorem remove_role_strips_all (acl : AccessControlList)
    (role_name username : String) (hinv : acl_user_roles_nodup acl)
    (hsucc : (acl.remove_role role_name).1 = true) :
    role_name ∉ (acl.remove_role role_name).2.get_user_roles username := by
  unfold AccessControlList.remove_role at *
  by_cases hr : (dict_get? acl.roles role_name).isNone
  · rw [if_pos hr] at hsucc
    simp at hsucc
  · rw [if_neg hr]
    unfold AccessControlList.get_user_roles
    show role_name ∉ (dict_get? (acl.user_roles.map (fun e =>
      (e.1, strip_role role_name e.2))) username).getD []
    rw [dict_get?_map_snd]
    cases hu : dict_get? acl.user_roles username with
    | none => simp
    | some lst =>
      simp only [Option.map_some', Option.getD_some]
      exact strip_role_not_mem role_name lst
        (hinv (username, lst) (dict_get?_eq_some_mem hu))

/-- C9: on every state reachable through the AccessControlList API from
the default construction, once remove_role(name) returns true no user's
assignment list contains that role name - the operations preserve the
duplicate-free assignment invariant, so stripping the first occurrence
strips the only one, and get_user_roles never reports the removed role. -/
theorem C9_remove_role_strips (ops : List AclOp)
    (role_name username : String)
    (hsucc : ((acl_after ops).remove_role role_name).1 = true) :
    role_name ∉
      ((acl_after ops).remove_role role_name).2.get_user_roles username :=
  remove_role_strips_all (acl_after ops) role_name username
    (acl_after_nodup ops) hsucc

/-- Witness for C9_remove_role_strips: after assigning guest to alice,
removing the guest role succeeds and alice's assignments no longer contain
it. -/
theorem C9_remove_role_strips_witness :
    ((acl_after [AclOp.assign "alice" "guest"]).remove_role "guest").1
        = true ∧
    "guest" ∉ ((acl_after [AclOp.assign "alice" "guest"]).remove_role
      "guest").2.get_user_roles "alice" :=
  ⟨by decide,
   C9_remove_role_strips [AclOp.assign "alice" "guest"] "guest" "alice"
     (by decide)⟩

end Nexus
